import Mathlib

/-!
Verification of the ampdoc registry (`src/service/ampdoc-impl.js`).

The JavaScript module resolves, for any DOM node, the `AmpDoc` instance that
owns it, across shadow-root and friendly-iframe (FIE) boundaries, and tracks
per-document lifecycle state (body availability, readiness).

Shallow embedding conventions:
* DOM nodes, elements and `AmpDoc` instances are identified by natural
  numbers (`Node`, `ElementNode`, `AmpDocId`); object identity in JS becomes
  identifier equality here.
* The immutable shape of the DOM (the external helpers `rootNodeFor`,
  `getShadowRootNode`, `getParentWindowFrameElement`, the `host`, `nodeType`
  and `isConnected` properties) is a record of functions, `DomEnv`.
* The two mutable expando properties the module reads and writes on nodes —
  the consumer-written back-reference `n.ampdoc_` and the registry marker
  `n[AMPDOC_PROP]` — form the mutable state `DomState`, threaded explicitly.
* The two `while` loops of `getAmpDocIfAvailable` are factored into a step
  function (`fieStep` / `legacyStep`, one loop iteration each) iterated with
  explicit fuel; `runFie`/`runLegacy` return `none` when the fuel runs out
  before the loop terminates, and `some r` when the loop terminates with
  result `r`.
* `devAssert` / thrown errors become `Except String` results.
* Promises and deferreds become a `Deferred` record: an identity (never
  changed after construction) plus a resolution state (`none` = pending).
-/

namespace AmpdocImpl

/-- A DOM node, identified by a number. -/
abbrev Node := Nat

/-- A DOM element (used for document bodies). -/
abbrev ElementNode := Nat

/-- Identity of an AmpDoc instance. -/
abbrev AmpDocId := Nat

/-- The immutable shape of the DOM and of the external traversal helpers, as
seen by the registry. `rootNodeFor n` is the root (document or shadow root) of
the tree `n` is in, `getShadowRootNode n` the nearest shadow-root ancestor,
`getParentWindowFrameElement n` the host frame element across a friendly
iframe boundary relative to the registry window, `host r` the host element of
a shadow root, `nodeType n` the DOM node type (9 = DOCUMENT), and
`isConnected n` the `Node.isConnected` property (`none` models a platform
where the property is undefined). -/
structure DomEnv where
  rootNodeFor : Node → Option Node
  getShadowRootNode : Node → Option Node
  getParentWindowFrameElement : Node → Option Node
  host : Node → Option Node
  nodeType : Node → Nat
  isConnected : Node → Option Bool

/-- The mutable per-node expando properties used by the registry:
`ampdocRef n` models `n.ampdoc_` (a consumer-written cached back-reference to
an owner) and `ampdocProp n` models `n[AMPDOC_PROP]` (the registry's one-time
marker associating a root node with its AmpDoc). -/
structure DomState where
  ampdocRef : Node → Option AmpDocId
  ampdocProp : Node → Option AmpDocId

/-- Write the `AMPDOC_PROP` marker on node `n`. -/
def DomState.setProp (st : DomState) (n : Node) (d : AmpDocId) : DomState :=
  { st with ampdocProp := fun m => if m = n then some d else st.ampdocProp m }

/-- Outcome of a single iteration of one of the traversal loops in
`getAmpDocIfAvailable`: an ampdoc was found (a `return` inside the loop), the
loop continues from another node, or the loop terminates without a match
(a `break`, or the loop condition failing). -/
inductive StepResult where
  | found (ampdoc : AmpDocId)
  | next (n : Node)
  | stop
deriving DecidableEq, Repr

/-- One iteration of the frame-embed-aware loop of `getAmpDocIfAvailable`
(the `ampdocFieExperimentOn_` branch): return a cached back-reference if
present; compute the root node, stopping if there is none; return the root's
marker if present; otherwise continue from the shadow host, else from the
parent-window frame element, else stop (the loop condition `while (n)`
fails when `getParentWindowFrameElement` returns null). -/
def fieStep (env : DomEnv) (st : DomState) (n : Node) : StepResult :=
  match st.ampdocRef n with
  | some ampdoc => .found ampdoc
  | none =>
    match env.rootNodeFor n with
    | none => .stop
    | some rootNode =>
      match st.ampdocProp rootNode with
      | some ampdoc => .found ampdoc
      | none =>
        match env.host rootNode with
        | some h => .next h
        | none =>
          match env.getParentWindowFrameElement rootNode with
          | some frameElement => .next frameElement
          | none => .stop

/-- One iteration of the legacy loop of `getAmpDocIfAvailable`: return a
cached back-reference if present; cross a friendly-iframe boundary first if
possible; stop if the registry cannot have shadow roots (fast path); compute
the shadow root (the node itself when it is a document, else the nearest
shadow-root ancestor), stopping if there is none; return its marker if
present; otherwise continue from the shadow root's host, stopping when the
host is absent (the loop condition fails). -/
def legacyStep (env : DomEnv) (st : DomState) (mightHaveShadowRoots : Bool)
    (n : Node) : StepResult :=
  match st.ampdocRef n with
  | some ampdoc => .found ampdoc
  | none =>
    match env.getParentWindowFrameElement n with
    | some frameElement => .next frameElement
    | none =>
      if !mightHaveShadowRoots then .stop
      else
        match (if env.nodeType n = 9 then some n else env.getShadowRootNode n) with
        | none => .stop
        | some shadowRoot =>
          match st.ampdocProp shadowRoot with
          | some ampdoc => .found ampdoc
          | none =>
            match env.host shadowRoot with
            | some h => .next h
            | none => .stop

/-- The frame-embed-aware loop, iterated with fuel. `none` means the fuel ran
out; `some r` means the loop terminated with result `r` (`some ampdoc` from a
hit, `none` = the JS `return null` after the loop or at a `break`). -/
def runFie (env : DomEnv) (st : DomState) : Nat → Node → Option (Option AmpDocId)
  | 0, _ => none
  | fuel + 1, n =>
    match fieStep env st n with
    | .found ampdoc => some (some ampdoc)
    | .stop => some none
    | .next m => runFie env st fuel m

/-- The legacy loop, iterated with fuel; when the loop exits without a match
it falls back to the cached `singleDoc_` (possibly null). -/
def runLegacy (env : DomEnv) (st : DomState) (mightHaveShadowRoots : Bool)
    (singleDoc : Option AmpDocId) : Nat → Node → Option (Option AmpDocId)
  | 0, _ => none
  | fuel + 1, n =>
    match legacyStep env st mightHaveShadowRoots n with
    | .found ampdoc => some (some ampdoc)
    | .stop => some singleDoc
    | .next m => runLegacy env st mightHaveShadowRoots singleDoc fuel m

/-- Reachability along the frame-embed-aware loop: `FieReaches env st n m`
holds when the traversal started at `n` reaches `m` after zero or more
continue steps. -/
inductive FieReaches (env : DomEnv) (st : DomState) : Node → Node → Prop where
  | refl (n : Node) : FieReaches env st n n
  | step {n m k : Node} : fieStep env st n = .next m →
      FieReaches env st m k → FieReaches env st n k

/-- Reachability along the legacy loop. -/
inductive LegacyReaches (env : DomEnv) (st : DomState)
    (mightHaveShadowRoots : Bool) : Node → Node → Prop where
  | refl (n : Node) : LegacyReaches env st mightHaveShadowRoots n n
  | step {n m k : Node} : legacyStep env st mightHaveShadowRoots n = .next m →
      LegacyReaches env st mightHaveShadowRoots m k →
      LegacyReaches env st mightHaveShadowRoots n k

/-- The state of the `AmpDocService` registry: the cached single doc
(`singleDoc_`, null in shadow-doc mode), the traversal-mode flag
(`ampdocFieExperimentOn_`) and the shadow fast-path flag
(`mightHaveShadowRoots_`). The AmpDoc instances themselves are identified by
`AmpDocId`; the per-instance state lives in the variant records below. -/
structure AmpDocService where
  singleDoc : Option AmpDocId
  ampdocFieExperimentOn : Bool
  mightHaveShadowRoots : Bool

/-- The `AmpDocService` constructor: in single-doc mode it allocates the
`AmpDocSingle` (modelled by the caller-supplied fresh `newDocId`), stores it
in `singleDoc_` and writes the `AMPDOC_PROP` marker on `win.document`;
`mightHaveShadowRoots_` starts as the negation of `isSingleDoc`. The
experiment flag is the value of the external `isExperimentOn` oracle. -/
def AmpDocService.create (winDocument : Node) (isSingleDoc : Bool)
    (ampdocFieExperimentOn : Bool) (newDocId : AmpDocId) (st : DomState) :
    AmpDocService × DomState :=
  if isSingleDoc then
    ({ singleDoc := some newDocId,
       ampdocFieExperimentOn := ampdocFieExperimentOn,
       mightHaveShadowRoots := false },
     st.setProp winDocument newDocId)
  else
    ({ singleDoc := none,
       ampdocFieExperimentOn := ampdocFieExperimentOn,
       mightHaveShadowRoots := true },
     st)

/-- `AmpDocService.isSingleDoc`: whether a single doc is cached. -/
def AmpDocService.isSingleDoc (svc : AmpDocService) : Bool :=
  svc.singleDoc.isSome

/-- `AmpDocService.getSingleDoc`: returns the cached single doc,
`devAssert`-failing when there is none. -/
def AmpDocService.getSingleDoc (svc : AmpDocService) : Except String AmpDocId :=
  match svc.singleDoc with
  | some ampdoc => .ok ampdoc
  | none => .error "devAssert failed"

/-- `AmpDocService.getAmpDocIfAvailable`: dispatches on the experiment flag to
the frame-embed-aware or the legacy traversal. -/
def AmpDocService.getAmpDocIfAvailable (svc : AmpDocService) (env : DomEnv)
    (st : DomState) (fuel : Nat) (node : Node) : Option (Option AmpDocId) :=
  if svc.ampdocFieExperimentOn then runFie env st fuel node
  else runLegacy env st svc.mightHaveShadowRoots svc.singleDoc fuel node

/-- `AmpDocService.getAmpDoc`: `devAssert`s that the node is attached when the
platform exposes `isConnected` (fails only when the property is present and
false), then resolves via `getAmpDocIfAvailable` and throws a descriptive
error when no ampdoc is found. The outer `Option` is fuel exhaustion of the
inner traversal. -/
def AmpDocService.getAmpDoc (svc : AmpDocService) (env : DomEnv)
    (st : DomState) (fuel : Nat) (node : Node) :
    Option (Except String AmpDocId) :=
  if env.isConnected node = some false then
    some (.error "The node must be attached to request ampdoc.")
  else
    match svc.getAmpDocIfAvailable env st fuel node with
    | none => none
    | some none => some (.error "No ampdoc found for")
    | some (some ampdoc) => some (.ok ampdoc)

/-- A one-shot deferred (`new Deferred()` from `utils/promise`): an identity,
fixed at construction and never replaced, plus a resolution state (`none`
while pending). Resolving mutates the state but keeps the identity, so a
promise obtained from the same field before and after resolution is the same
deferred. -/
structure Deferred (α : Type) where
  id : Nat
  resolution : Option α
deriving DecidableEq, Repr

/-- The base-class state shared by every AmpDoc variant: the append-only list
`declaredExtensions_` (the external `Signals` bus is opaque and omitted). -/
structure AmpDoc where
  declaredExtensions : List String
deriving DecidableEq, Repr

/-- `AmpDoc.declaresExtension`: membership in `declaredExtensions_`
(`indexOf(extensionId) != -1` in the source). -/
def AmpDoc.declaresExtension (ampdoc : AmpDoc) (extensionId : String) : Bool :=
  ampdoc.declaredExtensions.contains extensionId

/-- `AmpDoc.declareExtension`: pushes the id onto `declaredExtensions_`
unless it is already declared. -/
def AmpDoc.declareExtension (ampdoc : AmpDoc) (extensionId : String) : AmpDoc :=
  if ampdoc.declaresExtension extensionId then ampdoc
  else { ampdoc with declaredExtensions := ampdoc.declaredExtensions ++ [extensionId] }

/-- The window of the top-level document, as read by `AmpDocSingle`:
`win.document`, `win.document.body` (if present) and `win.location.href`. -/
structure WindowEnv where
  document : Node
  documentBody : Option ElementNode
  locationHref : String

/-- The `AmpDocSingle` variant: the top-level document. `bodyPromise_` is
already resolved when `win.document.body` exists at construction, otherwise
pending until the external body observer fires; the ready promise is the
external `whenDocumentReady` promise and is left opaque. -/
structure AmpDocSingle where
  base : AmpDoc
  win : WindowEnv
  bodyPromise : Option ElementNode

/-- The `AmpDocSingle` constructor. -/
def AmpDocSingle.new (win : WindowEnv) : AmpDocSingle :=
  { base := { declaredExtensions := [] },
    win := win,
    bodyPromise := win.documentBody }

/-- `AmpDocSingle.isSingleDoc` override. -/
def AmpDocSingle.isSingleDoc (_ampdoc : AmpDocSingle) : Bool := true

/-- `AmpDocSingle.getParent` override: always null. -/
def AmpDocSingle.getParent (_ampdoc : AmpDocSingle) : Option AmpDocId := none

/-- `AmpDocSingle.getRootNode` override: the window's document. -/
def AmpDocSingle.getRootNode (ampdoc : AmpDocSingle) : Node :=
  ampdoc.win.document

/-- `AmpDocSingle.getUrl` override: `win.location.href`. -/
def AmpDocSingle.getUrl (ampdoc : AmpDocSingle) : String :=
  ampdoc.win.locationHref

/-- `AmpDocSingle.isBodyAvailable` override: `!!win.document.body`. -/
def AmpDocSingle.isBodyAvailable (ampdoc : AmpDocSingle) : Bool :=
  ampdoc.win.documentBody.isSome

/-- `AmpDocSingle.getBody` override: asserts the body is available. -/
def AmpDocSingle.getBody (ampdoc : AmpDocSingle) : Except String ElementNode :=
  match ampdoc.win.documentBody with
  | some body => .ok body
  | none => .error "body not available"

/-- The `AmpDocShadow` variant: a shadow-root-hosted document with an
explicit url, the shadow root as its root node, a body set exactly once via
`setBody`, a ready bit set exactly once via `setReady`, and the two deferreds
(`bodyPromise_`/`bodyResolver_`, `readyPromise_`/`readyResolver_`) created
eagerly at construction. The `bodyResolver`/`readyResolver` booleans model
whether the resolver function is still defined (it is set to `undefined`
after firing). -/
structure AmpDocShadow where
  base : AmpDoc
  url : String
  shadowRoot : Node
  body : Option ElementNode
  bodyPromise : Deferred ElementNode
  bodyResolver : Bool
  ready : Bool
  readyPromise : Deferred Unit
  readyResolver : Bool
deriving DecidableEq, Repr

/-- The `AmpDocShadow` constructor: no body, pending body deferred, not
ready, pending ready deferred. The deferred identities are caller-supplied
fresh names for the two `new Deferred()` allocations. -/
def AmpDocShadow.new (url : String) (shadowRoot : Node)
    (bodyDeferredId readyDeferredId : Nat) : AmpDocShadow :=
  { base := { declaredExtensions := [] },
    url := url,
    shadowRoot := shadowRoot,
    body := none,
    bodyPromise := { id := bodyDeferredId, resolution := none },
    bodyResolver := true,
    ready := false,
    readyPromise := { id := readyDeferredId, resolution := none },
    readyResolver := true }

/-- `AmpDocShadow.isSingleDoc` override. -/
def AmpDocShadow.isSingleDoc (_ampdoc : AmpDocShadow) : Bool := false

/-- `AmpDocShadow.getParent` override: always null. -/
def AmpDocShadow.getParent (_ampdoc : AmpDocShadow) : Option AmpDocId := none

/-- `AmpDocShadow.getRootNode` override: the shadow root. -/
def AmpDocShadow.getRootNode (ampdoc : AmpDocShadow) : Node :=
  ampdoc.shadowRoot

/-- `AmpDocShadow.getUrl` override: the stored url. -/
def AmpDocShadow.getUrl (ampdoc : AmpDocShadow) : String :=
  ampdoc.url

/-- `AmpDocShadow.isBodyAvailable` override: `!!this.body_`. -/
def AmpDocShadow.isBodyAvailable (ampdoc : AmpDocShadow) : Bool :=
  ampdoc.body.isSome

/-- `AmpDocShadow.getBody` override: asserts the body is available. -/
def AmpDocShadow.getBody (ampdoc : AmpDocShadow) : Except String ElementNode :=
  match ampdoc.body with
  | some body => .ok body
  | none => .error "body not available"

/-- `AmpDocShadow.setBody`: `devAssert`s no body was set yet (`Duplicate
body`), then stores the body, fires the body resolver (resolving
`bodyPromise_` with the body) and clears the resolver. The second guard
models the JS `TypeError` from calling an `undefined` resolver; it is
unreachable from a constructed document whose body is unset. -/
def AmpDocShadow.setBody (ampdoc : AmpDocShadow) (body : ElementNode) :
    Except String AmpDocShadow :=
  if ampdoc.body.isSome then .error "Duplicate body"
  else if ampdoc.bodyResolver = false then
    .error "TypeError: bodyResolver_ is not a function"
  else
    .ok { ampdoc with
      body := some body,
      bodyPromise := { ampdoc.bodyPromise with resolution := some body },
      bodyResolver := false }

/-- `AmpDocShadow.waitForBodyOpen` override: returns `bodyPromise_` (always
the deferred created at construction; only its resolution state changes). -/
def AmpDocShadow.waitForBodyOpen (ampdoc : AmpDocShadow) : Deferred ElementNode :=
  ampdoc.bodyPromise

/-- `AmpDocShadow.isReady` override. -/
def AmpDocShadow.isReady (ampdoc : AmpDocShadow) : Bool :=
  ampdoc.ready

/-- `AmpDocShadow.setReady`: `devAssert`s the document was not ready yet,
sets the ready bit, fires and clears the ready resolver. -/
def AmpDocShadow.setReady (ampdoc : AmpDocShadow) : Except String AmpDocShadow :=
  if ampdoc.ready then .error "Duplicate ready state"
  else if ampdoc.readyResolver = false then
    .error "TypeError: readyResolver_ is not a function"
  else
    .ok { ampdoc with
      ready := true,
      readyPromise := { ampdoc.readyPromise with resolution := some () },
      readyResolver := false }

/-- `AmpDocShadow.whenReady` override: returns `readyPromise_`. -/
def AmpDocShadow.whenReady (ampdoc : AmpDocShadow) : Deferred Unit :=
  ampdoc.readyPromise

/-- An embedded (friendly-iframe) window as read by `installFieDoc` and
`AmpDocFie`: its own `document`, that document's body (if present), and the
`frameElement` linking back into the host document (null when absent). -/
structure ChildWindow where
  document : Node
  documentBody : Option ElementNode
  frameElement : Option Node
deriving DecidableEq, Repr

/-- The `AmpDocFie` variant: a friendly-iframe document with an explicit url,
the parent AmpDoc captured at construction, its own window's document as root
node, the body promise following the same present-or-deferred pattern as
`AmpDocSingle`, and a ready bit set once via `setReady`. -/
structure AmpDocFie where
  base : AmpDoc
  win : ChildWindow
  url : String
  parent : AmpDocId
  bodyPromise : Option ElementNode
  ready : Bool
  readyPromise : Deferred Unit
  readyResolver : Bool
deriving DecidableEq, Repr

/-- The `AmpDocFie` constructor. -/
def AmpDocFie.new (win : ChildWindow) (url : String) (parent : AmpDocId)
    (readyDeferredId : Nat) : AmpDocFie :=
  { base := { declaredExtensions := [] },
    win := win,
    url := url,
    parent := parent,
    bodyPromise := win.documentBody,
    ready := false,
    readyPromise := { id := readyDeferredId, resolution := none },
    readyResolver := true }

/-- `AmpDocFie.isSingleDoc` override. -/
def AmpDocFie.isSingleDoc (_ampdoc : AmpDocFie) : Bool := false

/-- `AmpDocFie.getParent` override: the parent captured at construction. -/
def AmpDocFie.getParent (ampdoc : AmpDocFie) : Option AmpDocId :=
  some ampdoc.parent

/-- `AmpDocFie.getRootNode` override: the embedded window's own document. -/
def AmpDocFie.getRootNode (ampdoc : AmpDocFie) : Node :=
  ampdoc.win.document

/-- `AmpDocFie.getUrl` override. -/
def AmpDocFie.getUrl (ampdoc : AmpDocFie) : String :=
  ampdoc.url

/-- `AmpDocFie.isReady` override. -/
def AmpDocFie.isReady (ampdoc : AmpDocFie) : Bool :=
  ampdoc.ready

/-- `AmpDocFie.setReady`: same one-shot pattern as the shadow variant. -/
def AmpDocFie.setReady (ampdoc : AmpDocFie) : Except String AmpDocFie :=
  if ampdoc.ready then .error "Duplicate ready state"
  else if ampdoc.readyResolver = false then
    .error "TypeError: readyResolver_ is not a function"
  else
    .ok { ampdoc with
      ready := true,
      readyPromise := { ampdoc.readyPromise with resolution := some () },
      readyResolver := false }

/-- The sum of the three concrete AmpDoc variants (the abstract base class is
never instantiated on its own). -/
inductive AmpDocVariant where
  | single (ampdoc : AmpDocSingle)
  | shadow (ampdoc : AmpDocShadow)
  | fie (ampdoc : AmpDocFie)

/-- `getParent` dispatched over the variants, as JS virtual dispatch does. -/
def AmpDocVariant.getParent : AmpDocVariant → Option AmpDocId
  | .single ampdoc => ampdoc.getParent
  | .shadow ampdoc => ampdoc.getParent
  | .fie ampdoc => ampdoc.getParent

/-- The parent of a document in a heap of allocated AmpDoc instances. -/
def parentOf (heap : AmpDocId → Option AmpDocVariant) (docId : AmpDocId) :
    Option AmpDocId :=
  (heap docId).bind AmpDocVariant.getParent

/-- The parent chain: `parentIter heap k docId` follows `getParent` `k`
times. -/
def parentIter (heap : AmpDocId → Option AmpDocVariant) :
    Nat → AmpDocId → Option AmpDocId
  | 0, docId => some docId
  | k + 1, docId => (parentOf heap docId).bind (parentIter heap k)

/-- `AmpDocService.installShadowDoc`: sets `mightHaveShadowRoots_` to true
(before any check), `devAssert`s that the shadow root carries no marker yet,
then constructs a fresh `AmpDocShadow` (its identity is the caller-supplied
fresh `newDocId`, its state `AmpDocShadow.new`) and marks the shadow root
with it. Returns the updated registry state, the updated node-property
state, and the result. -/
def AmpDocService.installShadowDoc (svc : AmpDocService) (st : DomState)
    (url : String) (shadowRoot : Node) (newDocId : AmpDocId)
    (bodyDeferredId readyDeferredId : Nat) :
    AmpDocService × DomState × Except String (AmpDocId × AmpDocShadow) :=
  let svc1 : AmpDocService := { svc with mightHaveShadowRoots := true }
  match st.ampdocProp shadowRoot with
  | some _ => (svc1, st, .error "The shadow root already contains ampdoc")
  | none =>
    (svc1, st.setProp shadowRoot newDocId,
     .ok (newDocId, AmpDocShadow.new url shadowRoot bodyDeferredId readyDeferredId))

/-- `AmpDocService.installFieDoc`: `devAssert`s that the embedded window's
document carries no marker and that the window knows its `frameElement`,
resolves the frame element's owner via `getAmpDoc` (throwing errors
propagate), constructs the `AmpDocFie` with that owner as parent, and marks
the embedded window's document with it. The outer `Option` is fuel
exhaustion of the inner `getAmpDoc` traversal. -/
def AmpDocService.installFieDoc (svc : AmpDocService) (env : DomEnv)
    (st : DomState) (fuel : Nat) (url : String) (childWin : ChildWindow)
    (newDocId : AmpDocId) (readyDeferredId : Nat) :
    Option (DomState × Except String (AmpDocId × AmpDocFie)) :=
  if (st.ampdocProp childWin.document).isSome then
    some (st, .error "The fie already contains ampdoc")
  else
    match childWin.frameElement with
    | none => some (st, .error "devAssert failed: childWin.frameElement")
    | some frameElement =>
      match svc.getAmpDoc env st fuel frameElement with
      | none => none
      | some (.error e) => some (st, .error e)
      | some (.ok parent) =>
        some (st.setProp childWin.document newDocId,
          .ok (newDocId, AmpDocFie.new childWin url parent readyDeferredId))

/-! Concrete fixtures used to instantiate the theorems below. -/

/-- A window whose main document is node 0, with a body present. -/
def sampleWindow : WindowEnv :=
  { document := 0, documentBody := some 100, locationHref := "https://example.com/" }

/-- A top-level document over `sampleWindow`. -/
def sampleSingleDoc : AmpDocSingle := AmpDocSingle.new sampleWindow

/-- A shadow document rooted at node 20. -/
def sampleShadowDoc : AmpDocShadow := AmpDocShadow.new "https://x/" 20 5 6

/-- An embedded window: its own document is node 30, its host frame element
node 3, no body yet. -/
def sampleChildWindow : ChildWindow :=
  { document := 30, documentBody := none, frameElement := some 3 }

/-- A FIE document in `sampleChildWindow` whose parent is doc 0. -/
def sampleFieDoc : AmpDocFie := AmpDocFie.new sampleChildWindow "https://y/" 0 7

/-- A heap allocating doc 0 = the top-level document and doc 1 = the FIE
document (whose parent 0 was allocated first). -/
def sampleHeap : AmpDocId → Option AmpDocVariant := fun docId =>
  if docId = 0 then some (.single sampleSingleDoc)
  else if docId = 1 then some (.fie sampleFieDoc)
  else none

/-- A flat DOM: every node's root is the main document 0; no shadow roots, no
frame boundaries. -/
def sampleEnv : DomEnv :=
  { rootNodeFor := fun _ => some 0,
    getShadowRootNode := fun _ => none,
    getParentWindowFrameElement := fun _ => none,
    host := fun _ => none,
    nodeType := fun _ => 1,
    isConnected := fun _ => none }

/-- Node state after single-doc bootstrap: the main document 0 is marked with
doc 42, no back-references. -/
def sampleSt : DomState :=
  { ampdocRef := fun _ => none,
    ampdocProp := fun m => if m = 0 then some 42 else none }

/-- Node state with no markers and no back-references at all. -/
def emptySt : DomState :=
  { ampdocRef := fun _ => none, ampdocProp := fun _ => none }

/-- A single-doc-mode registry in frame-embed-aware mode. -/
def sampleSvcFie : AmpDocService :=
  { singleDoc := some 42, ampdocFieExperimentOn := true, mightHaveShadowRoots := false }

/-- A single-doc-mode registry in legacy mode. -/
def sampleSvcLegacy : AmpDocService :=
  { singleDoc := some 42, ampdocFieExperimentOn := false, mightHaveShadowRoots := false }

/-- A DOM for the no-fallback scenario: node 0 lives under shadow root 10
whose host is node 1, and node 1 has no root at all; nothing is marked. -/
def strandedEnv : DomEnv :=
  { rootNodeFor := fun n => if n = 0 then some 10 else none,
    getShadowRootNode := fun _ => none,
    getParentWindowFrameElement := fun _ => none,
    host := fun r => if r = 10 then some 1 else none,
    nodeType := fun _ => 1,
    isConnected := fun _ => none }

/-- A frame-embed-aware registry that still caches a single doc 7. -/
def strandedSvcFie : AmpDocService :=
  { singleDoc := some 7, ampdocFieExperimentOn := true, mightHaveShadowRoots := true }

/-- A legacy registry caching single doc 7, with the shadow fast path on. -/
def strandedSvcLegacy : AmpDocService :=
  { singleDoc := some 7, ampdocFieExperimentOn := false, mightHaveShadowRoots := false }

/-- A DOM where every node reports `isConnected = false`. -/
def detachedEnv : DomEnv :=
  { sampleEnv with isConnected := fun _ => some false }

/-- A multi-doc-mode registry (no single doc cached). -/
def multiSvc : AmpDocService :=
  { singleDoc := none, ampdocFieExperimentOn := false, mightHaveShadowRoots := false }

/-- A DOM with a shadow subtree: node 21 lives under shadow root 20. -/
def shadowEnv : DomEnv :=
  { rootNodeFor := fun n => if n = 21 then some 20 else none,
    getShadowRootNode := fun n => if n = 21 then some 20 else none,
    getParentWindowFrameElement := fun _ => none,
    host := fun _ => none,
    nodeType := fun _ => 1,
    isConnected := fun _ => none }

/-- Node state where the embedded window's document (node 30) already
carries a marker. -/
def fieMarkedSt : DomState :=
  { ampdocRef := fun _ => none,
    ampdocProp := fun m => if m = 30 then some 9 else none }

/-- An embedded window that does not know its host frame element. -/
def childWinNoFrame : ChildWindow :=
  { document := 30, documentBody := none, frameElement := none }

/-! Helper lemmas shared by the claim theorems. -/

/-- A frame-embed-aware traversal that reaches a stopping point can only
terminate with the null result. -/
theorem runFie_stop_forall (env : DomEnv) (st : DomState) {n m : Node}
    (hreach : FieReaches env st n m) :
    fieStep env st m = .stop →
    ∀ fuel r, runFie env st fuel n = some r → r = none := by
  induction hreach with
  | refl p =>
    intro hstop fuel r h
    cases fuel with
    | zero => simp [runFie] at h
    | succ fuel =>
      simp only [runFie, hstop] at h
      exact (Option.some.inj h).symm
  | step hstep tail ih =>
    intro hstop fuel r h
    cases fuel with
    | zero => simp [runFie] at h
    | succ fuel =>
      simp only [runFie, hstep] at h
      exact ih hstop fuel r h

/-- A frame-embed-aware traversal that reaches a stopping point does, with
enough fuel, terminate with the null result. -/
theorem runFie_stop_exists (env : DomEnv) (st : DomState) {n m : Node}
    (hreach : FieReaches env st n m) :
    fieStep env st m = .stop → ∃ fuel, runFie env st fuel n = some none := by
  induction hreach with
  | refl p =>
    intro hstop
    exact ⟨1, by simp [runFie, hstop]⟩
  | step hstep tail ih =>
    intro hstop
    obtain ⟨fuel, hf⟩ := ih hstop
    exact ⟨fuel + 1, by simp [runFie, hstep, hf]⟩

/-- A legacy traversal whose loop exits without a match can only terminate
with the cached single doc. -/
theorem runLegacy_stop_forall (env : DomEnv) (st : DomState)
    (mightHaveShadowRoots : Bool) (singleDoc : Option AmpDocId) {n m : Node}
    (hreach : LegacyReaches env st mightHaveShadowRoots n m) :
    legacyStep env st mightHaveShadowRoots m = .stop →
    ∀ fuel r, runLegacy env st mightHaveShadowRoots singleDoc fuel n = some r →
      r = singleDoc := by
  induction hreach with
  | refl p =>
    intro hstop fuel r h
    cases fuel with
    | zero => simp [runLegacy] at h
    | succ fuel =>
      simp only [runLegacy, hstop] at h
      exact (Option.some.inj h).symm
  | step hstep tail ih =>
    intro hstop fuel r h
    cases fuel with
    | zero => simp [runLegacy] at h
    | succ fuel =>
      simp only [runLegacy, hstep] at h
      exact ih hstop fuel r h

/-- A legacy traversal whose loop exits without a match does, with enough
fuel, terminate with the cached single doc. -/
theorem runLegacy_stop_exists (env : DomEnv) (st : DomState)
    (mightHaveShadowRoots : Bool) (singleDoc : Option AmpDocId) {n m : Node}
    (hreach : LegacyReaches env st mightHaveShadowRoots n m) :
    legacyStep env st mightHaveShadowRoots m = .stop →
    ∃ fuel, runLegacy env st mightHaveShadowRoots singleDoc fuel n = some singleDoc := by
  induction hreach with
  | refl p =>
    intro hstop
    exact ⟨1, by simp [runLegacy, hstop]⟩
  | step hstep tail ih =>
    intro hstop
    obtain ⟨fuel, hf⟩ := ih hstop
    exact ⟨fuel + 1, by simp [runLegacy, hstep, hf]⟩

/-- In a heap where every FIE document's parent was allocated before it, a
single `getParent` step strictly decreases the identifier. -/
theorem parentOf_lt (heap : AmpDocId → Option AmpDocVariant)
    (hinv : ∀ docId ampdoc, heap docId = some (.fie ampdoc) → ampdoc.parent < docId)
    {docId p : AmpDocId} (h : parentOf heap docId = some p) : p < docId := by
  unfold parentOf at h
  cases hh : heap docId with
  | none => rw [hh] at h; simp at h
  | some v =>
    rw [hh] at h
    cases v with
    | single ampdoc =>
      simp [AmpDocVariant.getParent, AmpDocSingle.getParent] at h
    | shadow ampdoc =>
      simp [AmpDocVariant.getParent, AmpDocShadow.getParent] at h
    | fie ampdoc =>
      simp [AmpDocVariant.getParent, AmpDocFie.getParent] at h
      exact h ▸ hinv docId ampdoc hh

/-- In such a heap, any non-empty parent chain strictly decreases the
identifier. -/
theorem parentIter_lt (heap : AmpDocId → Option AmpDocVariant)
    (hinv : ∀ docId ampdoc, heap docId = some (.fie ampdoc) → ampdoc.parent < docId) :
    ∀ k docId p, parentIter heap (k + 1) docId = some p → p < docId := by
  intro k
  induction k with
  | zero =>
    intro docId p h
    simp only [parentIter, Option.bind_eq_some] at h
    obtain ⟨q, hq, hrest⟩ := h
    exact (Option.some.inj hrest) ▸ parentOf_lt heap hinv hq
  | succ k ih =>
    intro docId p h
    simp only [parentIter, Option.bind_eq_some] at h
    obtain ⟨q, hq, hrest⟩ := h
    have h1 : p < q := by
      apply ih
      simpa [parentIter, Option.bind_eq_some] using hrest
    exact lt_trans h1 (parentOf_lt heap hinv hq)

/-! The claim theorems. -/

/-- Claim C4: on a ShadowEmbeddedDocument whose body has not been set (the
constructor state), the first `setBody el` succeeds; afterwards
`isBodyAvailable` is true, `getBody` returns `el`, the body deferred keeps
its identity (so the promise returned by `waitForBodyOpen` before the call is
the very promise returned after it) and is resolved with `el`; a second
`setBody` fails with the `Duplicate body` assertion. -/
theorem claim_c4_setBody (ampdoc : AmpDocShadow) (el : ElementNode)
    (hbody : ampdoc.body = none) (hresolver : ampdoc.bodyResolver = true) :
    ∃ d1, ampdoc.setBody el = .ok d1
      ∧ d1.isBodyAvailable = true
      ∧ d1.getBody = .ok el
      ∧ d1.waitForBodyOpen.id = ampdoc.waitForBodyOpen.id
      ∧ d1.waitForBodyOpen.resolution = some el
      ∧ ∀ el2, d1.setBody el2 = .error "Duplicate body" := by
  refine ⟨{ ampdoc with
      body := some el,
      bodyPromise := { ampdoc.bodyPromise with resolution := some el },
      bodyResolver := false }, ?_, ?_, ?_, ?_, ?_, ?_⟩
  · simp [AmpDocShadow.setBody, hbody, hresolver]
  · simp [AmpDocShadow.isBodyAvailable]
  · simp [AmpDocShadow.getBody]
  · simp [AmpDocShadow.waitForBodyOpen]
  · simp [AmpDocShadow.waitForBodyOpen]
  · intro el2
    simp [AmpDocShadow.setBody]

/-- Witness for C4 at a freshly constructed shadow document and element 77. -/
theorem claim_c4_witness :
    ∃ d1, sampleShadowDoc.setBody 77 = .ok d1
      ∧ d1.isBodyAvailable = true
      ∧ d1.getBody = .ok 77
      ∧ d1.waitForBodyOpen.id = sampleShadowDoc.waitForBodyOpen.id
      ∧ d1.waitForBodyOpen.resolution = some 77
      ∧ ∀ el2, d1.setBody el2 = .error "Duplicate body" :=
  claim_c4_setBody sampleShadowDoc 77 rfl rfl

/-- Claim C6: `getAmpDoc` fails with the attached-node assertion whenever the
platform reports the node as detached; when the node passes the attachment
check it throws the descriptive no-ampdoc error exactly when
`getAmpDocIfAvailable` resolves to null, and returns exactly the resolved
owner otherwise. -/
theorem claim_c6_getAmpDoc (svc : AmpDocService) (env : DomEnv) (st : DomState)
    (fuel : Nat) (node : Node) :
    (env.isConnected node = some false →
      svc.getAmpDoc env st fuel node =
        some (.error "The node must be attached to request ampdoc."))
    ∧ (env.isConnected node ≠ some false →
      svc.getAmpDocIfAvailable env st fuel node = some none →
      svc.getAmpDoc env st fuel node = some (.error "No ampdoc found for"))
    ∧ (∀ ampdoc, env.isConnected node ≠ some false →
      svc.getAmpDocIfAvailable env st fuel node = some (some ampdoc) →
      svc.getAmpDoc env st fuel node = some (.ok ampdoc)) := by
  refine ⟨fun h => ?_, fun h1 h2 => ?_, fun ampdoc h1 h2 => ?_⟩
  · simp [AmpDocService.getAmpDoc, h]
  · simp [AmpDocService.getAmpDoc, h1, h2]
  · simp [AmpDocService.getAmpDoc, h1, h2]

/-- Witness for C6: a detached node, a node with no owner, and a node owned
by the single doc. -/
theorem claim_c6_witness :
    sampleSvcFie.getAmpDoc detachedEnv sampleSt 1 5 =
      some (.error "The node must be attached to request ampdoc.")
    ∧ strandedSvcFie.getAmpDoc strandedEnv emptySt 1 1 =
      some (.error "No ampdoc found for")
    ∧ sampleSvcFie.getAmpDoc sampleEnv sampleSt 1 5 = some (.ok 42) :=
  ⟨(claim_c6_getAmpDoc sampleSvcFie detachedEnv sampleSt 1 5).1 rfl,
   (claim_c6_getAmpDoc strandedSvcFie strandedEnv emptySt 1 1).2.1 (by decide) rfl,
   (claim_c6_getAmpDoc sampleSvcFie sampleEnv sampleSt 1 5).2.2 42 (by decide) rfl⟩

/-- Claim C7: `getParent` is null on the top-level and shadow variants and
returns the construction-time parent on the FIE variant; since `getParent` is
a function, no document has more than one parent, and in any heap where each
FIE document's parent was allocated before it (the construction-time
discipline), the parent chain never returns to its starting document. -/
theorem claim_c7_getParent :
    (∀ ampdoc : AmpDocSingle, AmpDocVariant.getParent (.single ampdoc) = none)
    ∧ (∀ ampdoc : AmpDocShadow, AmpDocVariant.getParent (.shadow ampdoc) = none)
    ∧ (∀ ampdoc : AmpDocFie, AmpDocVariant.getParent (.fie ampdoc) = some ampdoc.parent)
    ∧ ∀ (heap : AmpDocId → Option AmpDocVariant),
        (∀ docId ampdoc, heap docId = some (.fie ampdoc) → ampdoc.parent < docId) →
        ∀ docId k, parentIter heap (k + 1) docId ≠ some docId := by
  refine ⟨fun _ => rfl, fun _ => rfl, fun _ => rfl, fun heap hinv docId k h => ?_⟩
  exact absurd (parentIter_lt heap hinv k docId docId h) (lt_irrefl docId)

/-- Witness for C7 over the sample heap (doc 0 top-level, doc 1 FIE with
parent 0). -/
theorem claim_c7_witness :
    AmpDocVariant.getParent (.single sampleSingleDoc) = none
    ∧ AmpDocVariant.getParent (.shadow sampleShadowDoc) = none
    ∧ AmpDocVariant.getParent (.fie sampleFieDoc) = some sampleFieDoc.parent
    ∧ parentIter sampleHeap (0 + 1) 1 ≠ some 1 := by
  refine ⟨claim_c7_getParent.1 sampleSingleDoc, claim_c7_getParent.2.1 sampleShadowDoc,
    claim_c7_getParent.2.2.1 sampleFieDoc,
    claim_c7_getParent.2.2.2 sampleHeap ?_ 1 0⟩
  intro docId ampdoc h
  unfold sampleHeap at h
  by_cases h0 : docId = 0
  · subst h0; simp at h
  · by_cases h1 : docId = 1
    · subst h1
      simp at h
      subst h
      decide
    · simp [h0, h1] at h

/-- Claim C8: `declareExtension` is idempotent: when the extension is already
declared the document is unchanged (so no duplicate entries are ever stored),
after any call `declaresExtension` returns true, and a duplicate-free
extension list stays duplicate-free. -/
theorem claim_c8_declareExtension (ampdoc : AmpDoc) (extensionId : String) :
    (ampdoc.declaresExtension extensionId = true →
      ampdoc.declareExtension extensionId = ampdoc)
    ∧ (ampdoc.declareExtension extensionId).declaresExtension extensionId = true
    ∧ (ampdoc.declaredExtensions.Nodup →
      (ampdoc.declareExtension extensionId).declaredExtensions.Nodup) := by
  refine ⟨fun h => by simp [AmpDoc.declareExtension, h], ?_, ?_⟩
  · by_cases h : ampdoc.declaresExtension extensionId = true
    · simp [AmpDoc.declareExtension, h]
    · have hmem : extensionId ∉ ampdoc.declaredExtensions := by
        simpa [AmpDoc.declaresExtension] using h
      simp [AmpDoc.declareExtension, AmpDoc.declaresExtension, hmem]
  · intro hnd
    by_cases h : ampdoc.declaresExtension extensionId = true
    · simpa [AmpDoc.declareExtension, h]
    · have hmem : extensionId ∉ ampdoc.declaredExtensions := by
        simpa [AmpDoc.declaresExtension] using h
      simp [AmpDoc.declareExtension, h, List.nodup_append, hnd, hmem]

/-- Witness for C8 on a document that already declares "a". -/
theorem claim_c8_witness :
    (AmpDoc.declareExtension { declaredExtensions := ["a"] } "a" =
      { declaredExtensions := ["a"] })
    ∧ (AmpDoc.declareExtension { declaredExtensions := ["a"] } "a").declaresExtension "a" = true
    ∧ (AmpDoc.declareExtension { declaredExtensions := ["a"] } "a").declaredExtensions.Nodup :=
  ⟨(claim_c8_declareExtension { declaredExtensions := ["a"] } "a").1 (by decide),
   (claim_c8_declareExtension { declaredExtensions := ["a"] } "a").2.1,
   (claim_c8_declareExtension { declaredExtensions := ["a"] } "a").2.2 (by decide)⟩

/-- Claim C10: `installShadowDoc` flips `mightHaveShadowRoots_` to true
before checking the duplicate-marker precondition, so the flag is true after
every call — including a call that fails because the shadow root already
carries a marker; no registry operation ever writes the flag back to
false. -/
theorem claim_c10_installShadowDoc_flag (svc : AmpDocService) (st : DomState)
    (url : String) (shadowRoot : Node)
    (newDocId bodyDeferredId readyDeferredId : Nat) :
    (svc.installShadowDoc st url shadowRoot newDocId bodyDeferredId
      readyDeferredId).1.mightHaveShadowRoots = true
    ∧ ((st.ampdocProp shadowRoot).isSome →
      (svc.installShadowDoc st url shadowRoot newDocId bodyDeferredId
        readyDeferredId).2.2 = .error "The shadow root already contains ampdoc") := by
  unfold AmpDocService.installShadowDoc
  cases h : st.ampdocProp shadowRoot <;> simp [h]

/-- Witness for C10: installing over the already-marked main document of the
single-doc state still sets the flag, and fails. -/
theorem claim_c10_witness :
    (sampleSvcFie.installShadowDoc sampleSt "https://x/" 0 50 51 52).1.mightHaveShadowRoots = true
    ∧ (sampleSvcFie.installShadowDoc sampleSt "https://x/" 0 50 51 52).2.2 =
      .error "The shadow root already contains ampdoc" :=
  ⟨(claim_c10_installShadowDoc_flag sampleSvcFie sampleSt "https://x/" 0 50 51 52).1,
   (claim_c10_installShadowDoc_flag sampleSvcFie sampleSt "https://x/" 0 50 51 52).2 rfl⟩

/-- Claim C1: in single-doc mode (a cached single doc whose marker sits on
the main document), any node whose root is the main document with no shadow
or frame boundary in between and with no cached back-reference resolves to
the cached single doc under both traversal modes. -/
theorem claim_c1_single_doc_resolution (svc : AmpDocService) (env : DomEnv)
    (st : DomState) (winDocument : Node) (docId : AmpDocId) (n : Node) (fuel : Nat)
    (hsingle : svc.singleDoc = some docId)
    (hmarker : st.ampdocProp winDocument = some docId)
    (href : st.ampdocRef n = none)
    (hroot : env.rootNodeFor n = some winDocument)
    (hframe : env.getParentWindowFrameElement n = none)
    (hdoc : env.nodeType n = 9 → n = winDocument)
    (hshadow : env.nodeType n ≠ 9 → env.getShadowRootNode n = none) :
    svc.getSingleDoc = .ok docId
    ∧ svc.getAmpDocIfAvailable env st (fuel + 1) n = some (some docId) := by
  constructor
  · simp [AmpDocService.getSingleDoc, hsingle]
  · unfold AmpDocService.getAmpDocIfAvailable
    by_cases hfie : svc.ampdocFieExperimentOn = true
    · simp [hfie, runFie, fieStep, href, hroot, hmarker]
    · by_cases h9 : env.nodeType n = 9
      · have hnw := hdoc h9
        subst hnw
        rcases Bool.eq_false_or_eq_true svc.mightHaveShadowRoots with hmt | hmt <;>
          simp [hfie, runLegacy, legacyStep, href, hframe, hmt, h9, hmarker, hsingle]
      · rcases Bool.eq_false_or_eq_true svc.mightHaveShadowRoots with hmt | hmt <;>
          simp [hfie, runLegacy, legacyStep, href, hframe, hmt, h9,
            hshadow h9, hsingle]

/-- Witness for C1: node 5 under the main document 0 in the bootstrapped
single-doc state, in both traversal modes. -/
theorem claim_c1_witness :
    (sampleSvcFie.getSingleDoc = .ok 42
      ∧ sampleSvcFie.getAmpDocIfAvailable sampleEnv sampleSt (0 + 1) 5 = some (some 42))
    ∧ (sampleSvcLegacy.getSingleDoc = .ok 42
      ∧ sampleSvcLegacy.getAmpDocIfAvailable sampleEnv sampleSt (0 + 1) 5 = some (some 42)) :=
  ⟨claim_c1_single_doc_resolution sampleSvcFie sampleEnv sampleSt 0 42 5 0
      rfl rfl rfl rfl rfl (by decide) (by decide),
   claim_c1_single_doc_resolution sampleSvcLegacy sampleEnv sampleSt 0 42 5 0
      rfl rfl rfl rfl rfl (by decide) (by decide)⟩

/-- Claim C2: a frame-embed-aware traversal that reaches a point offering no
back-reference, no root node, or no marker/host/frame continuation
terminates with null — never with the cached single doc; a legacy traversal
whose loop exits without a match terminates with the cached single doc
(possibly null). -/
theorem claim_c2_no_fallback (svc : AmpDocService) (env : DomEnv)
    (st : DomState) (n m : Node) :
    (svc.ampdocFieExperimentOn = true → FieReaches env st n m →
      fieStep env st m = .stop →
      (∃ fuel, svc.getAmpDocIfAvailable env st fuel n = some none)
      ∧ ∀ fuel r, svc.getAmpDocIfAvailable env st fuel n = some r → r = none)
    ∧ (svc.ampdocFieExperimentOn = false →
      LegacyReaches env st svc.mightHaveShadowRoots n m →
      legacyStep env st svc.mightHaveShadowRoots m = .stop →
      (∃ fuel, svc.getAmpDocIfAvailable env st fuel n = some svc.singleDoc)
      ∧ ∀ fuel r, svc.getAmpDocIfAvailable env st fuel n = some r →
          r = svc.singleDoc) := by
  constructor
  · intro hflag hreach hstop
    constructor
    · obtain ⟨fuel, hf⟩ := runFie_stop_exists env st hreach hstop
      exact ⟨fuel, by simpa [AmpDocService.getAmpDocIfAvailable, hflag] using hf⟩
    · intro fuel r h
      apply runFie_stop_forall env st hreach hstop fuel r
      simpa [AmpDocService.getAmpDocIfAvailable, hflag] using h
  · intro hflag hreach hstop
    constructor
    · obtain ⟨fuel, hf⟩ :=
        runLegacy_stop_exists env st svc.mightHaveShadowRoots svc.singleDoc hreach hstop
      exact ⟨fuel, by simpa [AmpDocService.getAmpDocIfAvailable, hflag] using hf⟩
    · intro fuel r h
      apply runLegacy_stop_forall env st svc.mightHaveShadowRoots svc.singleDoc
        hreach hstop fuel r
      simpa [AmpDocService.getAmpDocIfAvailable, hflag] using h

/-- Witness for C2: in the stranded DOM, node 0 walks to node 1 and stops —
the frame-embed-aware registry answers null even though it caches doc 7,
while the legacy registry answers its cached doc 7. -/
theorem claim_c2_witness :
    ((∃ fuel, strandedSvcFie.getAmpDocIfAvailable strandedEnv emptySt fuel 0 = some none)
      ∧ ∀ fuel r, strandedSvcFie.getAmpDocIfAvailable strandedEnv emptySt fuel 0 = some r →
          r = none)
    ∧ ((∃ fuel, strandedSvcLegacy.getAmpDocIfAvailable strandedEnv emptySt fuel 0 =
          some strandedSvcLegacy.singleDoc)
      ∧ ∀ fuel r, strandedSvcLegacy.getAmpDocIfAvailable strandedEnv emptySt fuel 0 = some r →
          r = strandedSvcLegacy.singleDoc) :=
  ⟨(claim_c2_no_fallback strandedSvcFie strandedEnv emptySt 0 1).1 rfl
      (FieReaches.step rfl (FieReaches.refl 1)) rfl,
   (claim_c2_no_fallback strandedSvcLegacy strandedEnv emptySt 0 0).2 rfl
      (LegacyReaches.refl 0) rfl⟩

/-- Claim C3: installing a shadow doc on an unmarked root succeeds and marks
the root; a second install on the same root fails with the duplicate-marker
assertion and leaves the first doc as the marker, so later resolution of any
node rooted in that shadow root still returns the first doc in both
traversal modes. -/
theorem claim_c3_installShadowDoc_twice (svc : AmpDocService) (st : DomState)
    (env : DomEnv) (url1 url2 : String) (shadowRoot : Node)
    (id1 id2 b1 r1 b2 r2 : Nat)
    (hfree : st.ampdocProp shadowRoot = none) :
    (svc.installShadowDoc st url1 shadowRoot id1 b1 r1).2.2 =
      .ok (id1, AmpDocShadow.new url1 shadowRoot b1 r1)
    ∧ (svc.installShadowDoc st url1 shadowRoot id1 b1 r1).2.1.ampdocProp shadowRoot = some id1
    ∧ ((svc.installShadowDoc st url1 shadowRoot id1 b1 r1).1.installShadowDoc
        (svc.installShadowDoc st url1 shadowRoot id1 b1 r1).2.1
        url2 shadowRoot id2 b2 r2).2.2 = .error "The shadow root already contains ampdoc"
    ∧ ((svc.installShadowDoc st url1 shadowRoot id1 b1 r1).1.installShadowDoc
        (svc.installShadowDoc st url1 shadowRoot id1 b1 r1).2.1
        url2 shadowRoot id2 b2 r2).2.1.ampdocProp shadowRoot = some id1
    ∧ (∀ n fuel, st.ampdocRef n = none → env.rootNodeFor n = some shadowRoot →
        runFie env
          ((svc.installShadowDoc st url1 shadowRoot id1 b1 r1).1.installShadowDoc
            (svc.installShadowDoc st url1 shadowRoot id1 b1 r1).2.1
            url2 shadowRoot id2 b2 r2).2.1
          (fuel + 1) n = some (some id1))
    ∧ (∀ n fuel, st.ampdocRef n = none →
        env.getParentWindowFrameElement n = none →
        env.nodeType n ≠ 9 → env.getShadowRootNode n = some shadowRoot →
        runLegacy env
          ((svc.installShadowDoc st url1 shadowRoot id1 b1 r1).1.installShadowDoc
            (svc.installShadowDoc st url1 shadowRoot id1 b1 r1).2.1
            url2 shadowRoot id2 b2 r2).2.1
          ((svc.installShadowDoc st url1 shadowRoot id1 b1 r1).1.installShadowDoc
            (svc.installShadowDoc st url1 shadowRoot id1 b1 r1).2.1
            url2 shadowRoot id2 b2 r2).1.mightHaveShadowRoots
          ((svc.installShadowDoc st url1 shadowRoot id1 b1 r1).1.installShadowDoc
            (svc.installShadowDoc st url1 shadowRoot id1 b1 r1).2.1
            url2 shadowRoot id2 b2 r2).1.singleDoc
          (fuel + 1) n = some (some id1)) := by
  refine ⟨?_, ?_, ?_, ?_, ?_, ?_⟩
  · simp [AmpDocService.installShadowDoc, hfree]
  · simp [AmpDocService.installShadowDoc, hfree, DomState.setProp]
  · simp [AmpDocService.installShadowDoc, hfree, DomState.setProp]
  · simp [AmpDocService.installShadowDoc, hfree, DomState.setProp]
  · intro n fuel hrefn hrootn
    simp [AmpDocService.installShadowDoc, hfree, DomState.setProp, runFie,
      fieStep, hrefn, hrootn]
  · intro n fuel hrefn hframen h9 hshadown
    simp [AmpDocService.installShadowDoc, hfree, DomState.setProp, runLegacy,
      legacyStep, hrefn, hframen, h9, hshadown]

/-- Witness for C3: double install on shadow root 20 in a multi-doc
registry, then resolution of node 21 inside the shadow root in both modes. -/
theorem claim_c3_witness :
    (multiSvc.installShadowDoc emptySt "https://x/" 20 60 61 62).2.2 =
      .ok (60, AmpDocShadow.new "https://x/" 20 61 62)
    ∧ ((multiSvc.installShadowDoc emptySt "https://x/" 20 60 61 62).1.installShadowDoc
        (multiSvc.installShadowDoc emptySt "https://x/" 20 60 61 62).2.1
        "https://y/" 20 70 71 72).2.2 = .error "The shadow root already contains ampdoc"
    ∧ runFie shadowEnv
        ((multiSvc.installShadowDoc emptySt "https://x/" 20 60 61 62).1.installShadowDoc
          (multiSvc.installShadowDoc emptySt "https://x/" 20 60 61 62).2.1
          "https://y/" 20 70 71 72).2.1 (0 + 1) 21 = some (some 60)
    ∧ runLegacy shadowEnv
        ((multiSvc.installShadowDoc emptySt "https://x/" 20 60 61 62).1.installShadowDoc
          (multiSvc.installShadowDoc emptySt "https://x/" 20 60 61 62).2.1
          "https://y/" 20 70 71 72).2.1
        ((multiSvc.installShadowDoc emptySt "https://x/" 20 60 61 62).1.installShadowDoc
          (multiSvc.installShadowDoc emptySt "https://x/" 20 60 61 62).2.1
          "https://y/" 20 70 71 72).1.mightHaveShadowRoots
        ((multiSvc.installShadowDoc emptySt "https://x/" 20 60 61 62).1.installShadowDoc
          (multiSvc.installShadowDoc emptySt "https://x/" 20 60 61 62).2.1
          "https://y/" 20 70 71 72).1.singleDoc
        (0 + 1) 21 = some (some 60) := by
  have h := claim_c3_installShadowDoc_twice multiSvc emptySt shadowEnv
    "https://x/" "https://y/" 20 60 70 61 62 71 72 rfl
  exact ⟨h.1, h.2.2.1, h.2.2.2.2.1 21 0 rfl rfl,
    h.2.2.2.2.2 21 0 rfl rfl (by decide) rfl⟩

/-- Claim C5: `installFieDoc` fails when the embedded window's document is
already marked, when the window has no frame element, or when the frame
element's owner cannot be resolved (the `getAmpDoc` error propagates); on
success the new FIE doc's `getParent` is exactly the resolved owner of the
host frame element and the embedded window's document is marked with the new
instance. -/
theorem claim_c5_installFieDoc (svc : AmpDocService) (env : DomEnv)
    (st : DomState) (fuel : Nat) (url : String) (childWin : ChildWindow)
    (newDocId readyDeferredId : Nat) :
    ((st.ampdocProp childWin.document).isSome →
      svc.installFieDoc env st fuel url childWin newDocId readyDeferredId =
        some (st, .error "The fie already contains ampdoc"))
    ∧ (st.ampdocProp childWin.document = none → childWin.frameElement = none →
      svc.installFieDoc env st fuel url childWin newDocId readyDeferredId =
        some (st, .error "devAssert failed: childWin.frameElement"))
    ∧ (∀ frameElement e, st.ampdocProp childWin.document = none →
      childWin.frameElement = some frameElement →
      svc.getAmpDoc env st fuel frameElement = some (.error e) →
      svc.installFieDoc env st fuel url childWin newDocId readyDeferredId =
        some (st, .error e))
    ∧ (∀ frameElement parent, st.ampdocProp childWin.document = none →
      childWin.frameElement = some frameElement →
      svc.getAmpDoc env st fuel frameElement = some (.ok parent) →
      svc.installFieDoc env st fuel url childWin newDocId readyDeferredId =
        some (st.setProp childWin.document newDocId,
          .ok (newDocId, AmpDocFie.new childWin url parent readyDeferredId))
      ∧ (AmpDocFie.new childWin url parent readyDeferredId).getParent = some parent
      ∧ (st.setProp childWin.document newDocId).ampdocProp childWin.document =
          some newDocId) := by
  refine ⟨fun h => ?_, fun h1 h2 => ?_, fun frameElement e h1 h2 h3 => ?_,
    fun frameElement parent h1 h2 h3 => ⟨?_, rfl, ?_⟩⟩
  · simp [AmpDocService.installFieDoc, h]
  · simp [AmpDocService.installFieDoc, h1, h2]
  · simp [AmpDocService.installFieDoc, h1, h2, h3]
  · simp [AmpDocService.installFieDoc, h1, h2, h3]
  · simp [DomState.setProp]

/-- Witness for C5: the four scenarios at concrete states — already-marked
document, missing frame element, unresolvable host owner, and a successful
install whose parent is the single doc 42. -/
theorem claim_c5_witness :
    sampleSvcFie.installFieDoc sampleEnv fieMarkedSt 1 "https://y/" sampleChildWindow 80 81 =
      some (fieMarkedSt, .error "The fie already contains ampdoc")
    ∧ sampleSvcFie.installFieDoc sampleEnv emptySt 1 "https://y/" childWinNoFrame 80 81 =
      some (emptySt, .error "devAssert failed: childWin.frameElement")
    ∧ strandedSvcFie.installFieDoc strandedEnv emptySt 1 "https://y/" sampleChildWindow 80 81 =
      some (emptySt, .error "No ampdoc found for")
    ∧ (sampleSvcFie.installFieDoc sampleEnv sampleSt 1 "https://y/" sampleChildWindow 80 81 =
        some (sampleSt.setProp 30 80,
          .ok (80, AmpDocFie.new sampleChildWindow "https://y/" 42 81))
      ∧ (AmpDocFie.new sampleChildWindow "https://y/" 42 81).getParent = some 42
      ∧ (sampleSt.setProp 30 80).ampdocProp 30 = some 80) :=
  ⟨(claim_c5_installFieDoc sampleSvcFie sampleEnv fieMarkedSt 1 "https://y/"
      sampleChildWindow 80 81).1 rfl,
   (claim_c5_installFieDoc sampleSvcFie sampleEnv emptySt 1 "https://y/"
      childWinNoFrame 80 81).2.1 rfl rfl,
   (claim_c5_installFieDoc strandedSvcFie strandedEnv emptySt 1 "https://y/"
      sampleChildWindow 80 81).2.2.1 3 "No ampdoc found for" rfl rfl rfl,
   (claim_c5_installFieDoc sampleSvcFie sampleEnv sampleSt 1 "https://y/"
      sampleChildWindow 80 81).2.2.2 3 42 rfl rfl rfl⟩

/-- Claim C9: the registry constructor in single-doc mode immediately writes
the marker on the window's main document and caches the new single doc, so a
frame-embed-aware traversal from any node rooted in the main document (with
no cached back-reference) finds the single doc through the marker. -/
theorem claim_c9_create_marks (winDocument : Node) (fieOn : Bool)
    (docId : AmpDocId) (st : DomState) (env : DomEnv) (n : Node) (fuel : Nat)
    (href : st.ampdocRef n = none)
    (hroot : env.rootNodeFor n = some winDocument) :
    (AmpDocService.create winDocument true fieOn docId st).2.ampdocProp winDocument =
      some docId
    ∧ (AmpDocService.create winDocument true fieOn docId st).1.singleDoc = some docId
    ∧ (fieOn = true →
      (AmpDocService.create winDocument true fieOn docId st).1.getAmpDocIfAvailable env
        (AmpDocService.create winDocument true fieOn docId st).2 (fuel + 1) n =
        some (some docId)) := by
  refine ⟨?_, ?_, fun hflag => ?_⟩
  · simp [AmpDocService.create, DomState.setProp]
  · simp [AmpDocService.create]
  · subst hflag
    simp [AmpDocService.create, AmpDocService.getAmpDocIfAvailable, runFie,
      fieStep, DomState.setProp, href, hroot]

/-- Witness for C9: bootstrap over main document 0 and resolve node 5. -/
theorem claim_c9_witness :
    (AmpDocService.create 0 true true 42 emptySt).2.ampdocProp 0 = some 42
    ∧ (AmpDocService.create 0 true true 42 emptySt).1.singleDoc = some 42
    ∧ (AmpDocService.create 0 true true 42 emptySt).1.getAmpDocIfAvailable sampleEnv
        (AmpDocService.create 0 true true 42 emptySt).2 (0 + 1) 5 = some (some 42) :=
  ⟨(claim_c9_create_marks 0 true 42 emptySt sampleEnv 5 0 rfl rfl).1,
   (claim_c9_create_marks 0 true 42 emptySt sampleEnv 5 0 rfl rfl).2.1,
   (claim_c9_create_marks 0 true 42 emptySt sampleEnv 5 0 rfl rfl).2.2 rfl⟩

end AmpdocImpl
